import Mathlib

/-!
Verification development for the student-marketplace identity verification
pipeline (`src/lib/services/verification-config.ts`,
`src/lib/services/verification-worker.ts`, the verification processor and
OCR services, and `src/app/api/admin/verifications/route.ts`).

The TypeScript code is shallowly embedded:
* JS numbers appearing in the pipeline (similarity scores, confidences,
  timestamps, thresholds) are modeled as `Int`; averages as `Rat`.
* JS strings are modeled as Lean `String`s, with the handful of JS string
  operations the pipeline uses (`includes`, `toLowerCase`, `trim`,
  `split`) redefined over character lists (ASCII semantics).
* `null`/`undefined`-able values are modeled as `Option`; JS truthiness
  on strings/numbers is written out explicitly (`"" `/ `0` are falsy).
* The Prisma store is modeled as explicit state passing over a `Db`
  record of rows; `Date.now()` instants are supplied as parameters.
* The nondeterministic adapter results (face matching, OCR) are supplied
  as parameters, matching the fact that both adapters absorb their own
  failures into structured results.
-/

namespace JsStr

/-- Whitespace characters recognized by the JS `\s` character set
(restricted to the ASCII range). -/
def isWsChar (c : Char) : Bool :=
  c == ' ' || c == '\t' || c == '\n' || c == '\r' || c == '\x0b' || c == '\x0c'

/-- Test `beginsWith p cs`: the character list `p` is an initial segment of `cs`. -/
def beginsWith : List Char → List Char → Bool
  | [], _ => true
  | _ :: _, [] => false
  | a :: as, b :: bs => a == b && beginsWith as bs

/-- Test `occursIn p cs`: the character list `p` occurs contiguously inside `cs`.
This is JS `String.prototype.includes` on character lists. -/
def occursIn (p : List Char) : List Char → Bool
  | [] => beginsWith p []
  | c :: cs => beginsWith p (c :: cs) || occursIn p cs

/-- JS `s.includes(pat)`. -/
def jsIncludes (s pat : String) : Bool :=
  occursIn pat.data s.data

/-- JS `s.toLowerCase()` (ASCII folding). -/
def jsToLower (s : String) : String :=
  String.mk (s.data.map Char.toLower)

/-- JS `s.trim()`: strip whitespace from both ends. -/
def jsTrim (s : String) : String :=
  String.mk (((s.data.dropWhile isWsChar).reverse.dropWhile isWsChar).reverse)

/-- Worker for `splitWs`; `inWs` records whether the previous character was
part of a whitespace run whose segment has already been emitted. -/
def splitWsGo : List Char → List Char → Bool → List String
  | [], acc, _ => [String.mk acc.reverse]
  | c :: cs, acc, inWs =>
    if isWsChar c then
      if inWs then splitWsGo cs [] true
      else String.mk acc.reverse :: splitWsGo cs [] true
    else splitWsGo cs (c :: acc) false

/-- JS `s.split(/\s+/)`: split on maximal whitespace runs; a leading or
trailing run contributes an empty segment, and `"".split(/\s+/) = [""]`. -/
def splitWs (s : String) : List String :=
  splitWsGo s.data [] false

/-- Worker for `splitOnChar`. -/
def splitOnCharGo (sep : Char) : List Char → List Char → List (List Char)
  | [], acc => [acc.reverse]
  | c :: cs, acc =>
    if c == sep then acc.reverse :: splitOnCharGo sep cs []
    else splitOnCharGo sep cs (c :: acc)

/-- JS `s.split(sep)` for a single-character separator. -/
def splitOnChar (sep : Char) (cs : List Char) : List (List Char) :=
  splitOnCharGo sep cs []

/-- JS `n.toFixed(1)` for an integral number. -/
def jsToFixed1 (n : Int) : String :=
  toString n ++ ".0"

end JsStr

open JsStr

/-! ## Policy configuration (`src/lib/services/verification-config.ts`) -/

structure VerificationThresholds where
  faceMatchMinScore : Int
  faceMatchConfidenceMin : Int
  ocrConfidenceMin : Int
  autoApprovalFaceMatchMin : Int
  autoApprovalOcrConfidenceMin : Int
deriving DecidableEq, Repr

structure VerificationConfig where
  thresholds : VerificationThresholds
  maxRetries : Nat
  processingTimeoutMs : Int
  queueBatchSize : Nat
  queuePollingIntervalMs : Int
  enableFaceMatching : Bool
  enableOcr : Bool
  enableAutoApproval : Bool
  recognizedColleges : List String
deriving DecidableEq, Repr

def DEFAULT_VERIFICATION_CONFIG : VerificationConfig where
  thresholds :=
    { faceMatchMinScore := 75
      faceMatchConfidenceMin := 70
      ocrConfidenceMin := 60
      autoApprovalFaceMatchMin := 75
      autoApprovalOcrConfidenceMin := 70 }
  maxRetries := 3
  processingTimeoutMs := 15000
  queueBatchSize := 10
  queuePollingIntervalMs := 5000
  enableFaceMatching := true
  enableOcr := true
  enableAutoApproval := true
  recognizedColleges :=
    [ "harvard", "stanford", "mit", "yale", "princeton", "columbia",
      "berkeley", "ucla", "nyu", "university of california",
      "california institute of technology", "cornell", "duke",
      "northwestern", "university of michigan", "university of texas",
      "georgia tech", "carnegie mellon", "university of washington",
      "university of illinois", "purdue", "penn state", "ohio state",
      "university of florida", "university of north carolina" ]

/-- Source `isCollegeRecognized(collegeName, config)`: false on the empty string,
otherwise a bidirectional substring test of the lower-cased trimmed name
against each entry of the recognized-college list. -/
def isCollegeRecognized (collegeName : String) (config : VerificationConfig) : Bool :=
  if collegeName.isEmpty then false
  else
    let normalizedName := jsTrim (jsToLower collegeName)
    config.recognizedColleges.any fun college =>
      jsIncludes normalizedName college || jsIncludes college normalizedName

structure AppearanceCheck where
  isValid : Bool
  issues : List String
deriving DecidableEq, Repr

/-- The fixed suspicious-marker patterns of `validateIdAppearance`, each as a
pair (first literal, second literal) joined by `\s*` in the source regexes;
single-word patterns have an empty second component. -/
def suspiciousGapPats : List (String × String) :=
  [ ("test", "id"), ("sample", "id"), ("fake", "id"), ("specimen", ""),
    ("void", ""), ("not", "valid"), ("example", "") ]

/-- Matches `a` then `\s*` then `b` exactly at the front of `cs`.  Since `b`
never starts with a whitespace character, skipping the maximal whitespace
run is equivalent to the regex's `\s*`. -/
def gapMatchAt (a b cs : List Char) : Bool :=
  beginsWith a cs && beginsWith b ((cs.drop a.length).dropWhile isWsChar)

/-- Matches `a` then `\s*` then `b` anywhere inside `cs`. -/
def gapOccurs (a b : List Char) : List Char → Bool
  | [] => gapMatchAt a b []
  | c :: cs => gapMatchAt a b (c :: cs) || gapOccurs a b cs

/-- Case-insensitive test of the suspicious-marker regex list against the
extracted raw text. -/
def hasSuspiciousPattern (text : String) : Bool :=
  suspiciousGapPats.any fun p =>
    gapOccurs p.1.data p.2.data (jsToLower text).data

/-- Source `validateIdAppearance(extractedText, extractedName, extractedCollege)`:
flags blank text (absent or trimmed length < 20), missing name (absent or
trimmed length < 2), missing college (absent or trimmed length < 3), and a
suspicious marker in the raw text (only checked when text is truthy). -/
def validateIdAppearance (extractedText extractedName extractedCollege : Option String) :
    AppearanceCheck :=
  let blankIssues :=
    match extractedText with
    | none => ["ID appears blank or has insufficient text"]
    | some t =>
      if t.isEmpty || (jsTrim t).data.length < 20 then
        ["ID appears blank or has insufficient text"]
      else []
  let nameIssues :=
    match extractedName with
    | none => ["Could not extract valid name from ID"]
    | some n =>
      if n.isEmpty || (jsTrim n).data.length < 2 then
        ["Could not extract valid name from ID"]
      else []
  let collegeIssues :=
    match extractedCollege with
    | none => ["Could not extract college name from ID"]
    | some c =>
      if c.isEmpty || (jsTrim c).data.length < 3 then
        ["Could not extract college name from ID"]
      else []
  let suspiciousIssues :=
    match extractedText with
    | none => []
    | some t =>
      if !t.isEmpty && hasSuspiciousPattern t then
        ["ID contains suspicious patterns"]
      else []
  let issues := blankIssues ++ nameIssues ++ collegeIssues ++ suspiciousIssues
  ⟨issues.isEmpty, issues⟩

/-! ## Adapter result shapes (`src/lib/services/face-matching.ts`, OCR service) -/

structure FaceMatchResult where
  similarity : Int
  confidence : Int
  success : Bool
  errorMessage : Option String
  processingTimeMs : Int
deriving DecidableEq, Repr

structure OcrResult where
  success : Bool
  confidence : Int
  extractedText : Option String
  extractedName : Option String
  extractedCollege : Option String
  extractedStudentId : Option String
  extractedExpiry : Option String
  processingTimeMs : Int
  errorMessage : Option String
deriving DecidableEq, Repr

structure DataValidation where
  «matches» : Bool
  issues : List String
deriving DecidableEq, Repr

/-- Source `validateExtractedData(ocrResult, userName, userEmail)` from the OCR
service.  The JS `Date` runtime is abstracted: `parseDate` models
`new Date(string)` (`none` = invalid date) and `now` models `new Date()`,
compared as instants. -/
def validateExtractedData (parseDate : String → Option Int) (now : Int)
    (ocrResult : OcrResult) (userName userEmail : String) : DataValidation :=
  if !ocrResult.success then ⟨false, ["OCR extraction failed"]⟩
  else
    let nameIssues :=
      match ocrResult.extractedName with
      | none => ["Could not extract name from ID"]
      | some extractedName =>
        if extractedName.isEmpty then ["Could not extract name from ID"]
        else
          let extractedNameLower := jsToLower extractedName
          let userNameLower := jsToLower userName
          let nameWords := splitWs userNameLower
          let extractedWords := splitWs extractedNameLower
          let matchingWords := nameWords.filter fun word =>
            extractedWords.any fun extracted =>
              jsIncludes extracted word || jsIncludes word extracted
          if matchingWords.length < min 1 nameWords.length then
            ["Name on ID does not match profile name"]
          else []
    let collegeIssues :=
      match ocrResult.extractedCollege with
      | none => []
      | some extractedCollege =>
        if extractedCollege.isEmpty || userEmail.isEmpty then []
        else
          let emailDomain :=
            match splitOnChar '@' userEmail.data with
            | _ :: d :: _ => jsToLower (String.mk d)
            | _ => ""
          let collegeLower := jsToLower extractedCollege
          let domainName := String.mk ((splitOnChar '.' emailDomain.data).headD [])
          let collegeFirstWord := String.mk ((splitOnChar ' ' collegeLower.data).headD [])
          if !jsIncludes collegeLower domainName && !jsIncludes domainName collegeFirstWord then
            ["College on ID may not match email domain"]
          else []
    let expiryIssues :=
      match ocrResult.extractedExpiry with
      | none => []
      | some extractedExpiry =>
        if extractedExpiry.isEmpty then []
        else
          match parseDate extractedExpiry with
          | some expiryDate => if expiryDate < now then ["Student ID appears to be expired"] else []
          | none => []
    let issues := nameIssues ++ collegeIssues ++ expiryIssues
    ⟨issues.isEmpty, issues⟩

/-! ## Auto-approval policy (`checkAutoApproval` in the verification processor) -/

structure AutoApprovalCheck where
  approved : Bool
  reason : String
  issues : List String
deriving DecidableEq, Repr

/-- The face-score issue string
``Face match score (S.toFixed(1)%) below threshold (T%)``. -/
def faceIssueString (similarity threshold : Int) : String :=
  "Face match score (" ++ (jsToFixed1 similarity ++ ("%) below threshold (" ++ (toString threshold ++ "%)")))

/-- The OCR-confidence issue string
``OCR confidence (C.toFixed(1)%) below threshold (T%)``. -/
def ocrConfIssueString (confidence threshold : Int) : String :=
  "OCR confidence (" ++ (jsToFixed1 confidence ++ ("%) below threshold (" ++ (toString threshold ++ "%)")))

/-- The face-matching block of `checkAutoApproval` (lines 43-50 of the
verification processor): empty when the feature is disabled. -/
def faceIssues (faceMatch : Option FaceMatchResult) (config : VerificationConfig) : List String :=
  if config.enableFaceMatching then
    match faceMatch with
    | none => ["Face matching failed"]
    | some f =>
      if !f.success then ["Face matching failed"]
      else if f.similarity < config.thresholds.autoApprovalFaceMatchMin then
        [faceIssueString f.similarity config.thresholds.autoApprovalFaceMatchMin]
      else []
  else []

/-- The OCR block of `checkAutoApproval` (lines 52-77 of the verification
processor): confidence threshold, college recognition, ID appearance. -/
def ocrIssues (ocr : Option OcrResult) (config : VerificationConfig) : List String :=
  if config.enableOcr then
    match ocr with
    | none => ["OCR extraction failed"]
    | some o =>
      if !o.success then ["OCR extraction failed"]
      else
        (if o.confidence < config.thresholds.autoApprovalOcrConfidenceMin then
          [ocrConfIssueString o.confidence config.thresholds.autoApprovalOcrConfidenceMin]
        else []) ++
        (if !isCollegeRecognized (o.extractedCollege.getD "") config then
          ["College not recognized in our database"]
        else []) ++
        (let idValidation := validateIdAppearance o.extractedText o.extractedName o.extractedCollege
         if !idValidation.isValid then idValidation.issues else [])
  else []

/-- Source `checkAutoApproval(faceMatch, ocr, config)`: approve only when no issue
was collected and auto-approval is enabled. -/
def checkAutoApproval (faceMatch : Option FaceMatchResult) (ocr : Option OcrResult)
    (config : VerificationConfig) : AutoApprovalCheck :=
  let issues := faceIssues faceMatch config ++ ocrIssues ocr config
  if issues.isEmpty && config.enableAutoApproval then
    ⟨true, "All verification criteria met", []⟩
  else
    ⟨false, "Verification requires manual review", issues⟩

/-! ## Persistence model (Prisma store as explicit state) -/

inductive VStatus
  | PENDING
  | PROCESSING
  | AUTO_APPROVED
  | NEEDS_REVIEW
  | REJECTED
  | APPROVED
deriving DecidableEq, Repr

inductive UserVerifStatus
  | UNVERIFIED
  | PENDING
  | VERIFIED
  | REJECTED
deriving DecidableEq, Repr

structure VerificationRow where
  id : Nat
  userId : String
  studentIdPhotoUrl : String
  selfiePhotoUrl : String
  status : VStatus
  createdAt : Int
  processingStartedAt : Option Int := none
  processingCompletedAt : Option Int := none
  retryCount : Nat := 0
  errorMessage : Option String := none
  faceMatchScore : Option Int := none
  faceMatchConfidence : Option Int := none
  ocrExtractedName : Option String := none
  ocrExtractedCollege : Option String := none
  ocrExtractedStudentId : Option String := none
  ocrExtractedExpiry : Option String := none
  ocrConfidence : Option Int := none
  ocrRawText : Option String := none
  idLooksValid : Option Bool := none
  collegeRecognized : Option Bool := none
  processingTimeMs : Option Int := none
  reviewNotes : Option String := none
  rejectionReason : Option String := none
  reviewedBy : Option String := none
  reviewedAt : Option Int := none
deriving DecidableEq, Repr

structure UserRow where
  id : String
  name : String
  email : String
  verificationStatus : UserVerifStatus
  studentIdPhoto : Option String := none
  selfiePhoto : Option String := none
  college : Option String := none
  trustScore : Option Int := none
  badges : List String := []
deriving DecidableEq, Repr

/-- The relational store: the verification table, the user table, and the
next fresh verification id. -/
structure Db where
  verifications : List VerificationRow
  users : List UserRow
  nextVerificationId : Nat
deriving DecidableEq, Repr

def findVerification (db : Db) (id : Nat) : Option VerificationRow :=
  db.verifications.find? fun r => r.id == id

def updateVerification (db : Db) (id : Nat) (f : VerificationRow → VerificationRow) : Db :=
  { db with verifications := db.verifications.map fun r => if r.id == id then f r else r }

def findUser (db : Db) (id : String) : Option UserRow :=
  db.users.find? fun u => u.id == id

def updateUser (db : Db) (id : String) (f : UserRow → UserRow) : Db :=
  { db with users := db.users.map fun u => if u.id == id then f u else u }

/-! ## Decision engine (`processVerification` in the verification processor) -/

structure VerificationProcessResult where
  verificationId : Nat
  status : VStatus
  faceMatch : Option FaceMatchResult
  ocr : Option OcrResult
  autoApprovalReason : Option String
  reviewReasons : Option (List String)
  totalProcessingTimeMs : Int
deriving DecidableEq, Repr

structure ProcessVerificationInput where
  userId : String
  studentIdPhotoUrl : String
  selfiePhotoUrl : String
deriving DecidableEq, Repr

/-- JS `x || null` on a nullable number: a present `0` coalesces to null. -/
def jsNumOrNull : Option Int → Option Int
  | some v => if v == 0 then none else some v
  | none => none

/-- JS `x || null` on a nullable string: a present `""` coalesces to null. -/
def jsStrOrNull : Option String → Option String
  | some s => if s.isEmpty then none else some s
  | none => none

/-- An issue auto-rejects when it contains one of the literal substrings
`"expired"`, `"fake"` or `"suspicious patterns"`. -/
def hasRejectMarker (issue : String) : Bool :=
  jsIncludes issue "expired" || jsIncludes issue "fake" ||
    jsIncludes issue "suspicious patterns"

/-- Cross-validation as run by `processVerification`: only performed when
both an OCR result and a user row are present. -/
def dataValidationFor (parseDate : String → Option Int) (now : Int)
    (ocr : Option OcrResult) (user : Option UserRow) : DataValidation :=
  match ocr, user with
  | some o, some u => validateExtractedData parseDate now o u.name u.email
  | _, _ => ⟨true, []⟩

/-- The final-status decision of `processVerification` (lines 150-162):
AUTO_APPROVED when policy approved and cross-validation matches, REJECTED
when the combined issues contain an auto-reject marker, NEEDS_REVIEW
otherwise. -/
def decideFinalStatus (autoApproval : AutoApprovalCheck) (dataValidation : DataValidation) : VStatus :=
  if autoApproval.approved && dataValidation.matches then VStatus.AUTO_APPROVED
  else if (autoApproval.issues ++ dataValidation.issues).any hasRejectMarker then VStatus.REJECTED
  else VStatus.NEEDS_REVIEW

/-- The `"; "`-joined issue list stored in `reviewNotes`/`rejectionReason`. -/
def joinIssues (issues : List String) : String :=
  String.intercalate "; " issues

/-- The row created (status PROCESSING) before any adapter call. -/
def newVerificationRow (input : ProcessVerificationInput) (vid : Nat) (startTime : Int) :
    VerificationRow :=
  { id := vid
    userId := input.userId
    studentIdPhotoUrl := input.studentIdPhotoUrl
    selfiePhotoUrl := input.selfiePhotoUrl
    status := VStatus.PROCESSING
    createdAt := startTime
    processingStartedAt := some startTime }

/-- Source `processVerification(input)`.

State and environment are explicit: `db` is the store;
`faceMatchResult`/`ocrResult` are the outcomes the two adapters would
deliver (both adapters absorb their own failures, so they always deliver a
structured result); `lookupFault = some msg` injects the one engine-level
failure mode, an exception (with message `msg`) escaping the orchestration
around the user-profile lookup; `parseDate` models the JS `Date` parser;
`startTime`/`endTime` are the `Date.now()` instants at entry and at
completion.

Modelled from the spec: `calculateTrustScore`/`getEarnedBadges` live in the
trust-engine module, which is not part of this snapshot; as §6 describes
them as pure functions consumed after an approval transition, and they are
invoked here on constant arguments, their outputs are supplied as the
parameters `trustScoreOnApproval`/`badgesOnApproval`. -/
def processVerification (db : Db) (input : ProcessVerificationInput)
    (faceMatchResult : FaceMatchResult) (ocrResult : OcrResult)
    (lookupFault : Option String)
    (parseDate : String → Option Int)
    (trustScoreOnApproval : Int) (badgesOnApproval : List String)
    (config : VerificationConfig) (startTime endTime : Int) :
    Db × VerificationProcessResult :=
  let vid := db.nextVerificationId
  let row0 := newVerificationRow input vid startTime
  let db0 : Db :=
    { db with verifications := db.verifications ++ [row0], nextVerificationId := vid + 1 }
  let faceMatch : Option FaceMatchResult :=
    if config.enableFaceMatching then some faceMatchResult else none
  let ocr : Option OcrResult :=
    if config.enableOcr then some ocrResult else none
  match lookupFault with
  | some errorMessage =>
    let db1 := updateVerification db0 vid fun r =>
      { r with
          status := VStatus.NEEDS_REVIEW
          errorMessage := some errorMessage
          processingCompletedAt := some endTime
          processingTimeMs := some (endTime - startTime) }
    let db2 := updateUser db1 input.userId fun u =>
      { u with
          verificationStatus := UserVerifStatus.PENDING
          studentIdPhoto := some input.studentIdPhotoUrl
          selfiePhoto := some input.selfiePhotoUrl }
    (db2,
      { verificationId := vid
        status := VStatus.NEEDS_REVIEW
        faceMatch := faceMatch
        ocr := ocr
        autoApprovalReason := none
        reviewReasons := some ["Processing error: " ++ errorMessage]
        totalProcessingTimeMs := endTime - startTime })
  | none =>
    let user := findUser db0 input.userId
    let dataValidation := dataValidationFor parseDate endTime ocr user
    let autoApproval := checkAutoApproval faceMatch ocr config
    let allIssues := autoApproval.issues ++ dataValidation.issues
    let status := decideFinalStatus autoApproval dataValidation
    let totalProcessingTimeMs := endTime - startTime
    let db1 := updateVerification db0 vid fun r =>
      { r with
          status := status
          faceMatchScore := jsNumOrNull (faceMatch.map (·.similarity))
          faceMatchConfidence := jsNumOrNull (faceMatch.map (·.confidence))
          ocrExtractedName := jsStrOrNull (ocr.bind (·.extractedName))
          ocrExtractedCollege := jsStrOrNull (ocr.bind (·.extractedCollege))
          ocrExtractedStudentId := jsStrOrNull (ocr.bind (·.extractedStudentId))
          ocrExtractedExpiry := jsStrOrNull (ocr.bind (·.extractedExpiry))
          ocrConfidence := jsNumOrNull (ocr.map (·.confidence))
          ocrRawText := jsStrOrNull (ocr.bind (·.extractedText))
          idLooksValid := some (validateIdAppearance
            (jsStrOrNull (ocr.bind (·.extractedText)))
            (jsStrOrNull (ocr.bind (·.extractedName)))
            (jsStrOrNull (ocr.bind (·.extractedCollege)))).isValid
          collegeRecognized := some (isCollegeRecognized ((ocr.bind (·.extractedCollege)).getD "") config)
          processingCompletedAt := some endTime
          processingTimeMs := some totalProcessingTimeMs
          reviewNotes := if allIssues.length > 0 then some (joinIssues allIssues) else none
          rejectionReason := if status == VStatus.REJECTED then some (joinIssues allIssues) else none }
    let db2 :=
      if status == VStatus.AUTO_APPROVED then
        updateUser db1 input.userId fun u =>
          { u with
              verificationStatus := UserVerifStatus.VERIFIED
              studentIdPhoto := some input.studentIdPhotoUrl
              selfiePhoto := some input.selfiePhotoUrl
              college :=
                match jsStrOrNull (ocr.bind (·.extractedCollege)) with
                | some c => some c
                | none => u.college
              trustScore := some trustScoreOnApproval
              badges := badgesOnApproval }
      else if status == VStatus.NEEDS_REVIEW then
        updateUser db1 input.userId fun u =>
          { u with
              verificationStatus := UserVerifStatus.PENDING
              studentIdPhoto := some input.studentIdPhotoUrl
              selfiePhoto := some input.selfiePhotoUrl }
      else if status == VStatus.REJECTED then
        updateUser db1 input.userId fun u =>
          { u with
              verificationStatus := UserVerifStatus.REJECTED
              studentIdPhoto := some input.studentIdPhotoUrl
              selfiePhoto := some input.selfiePhotoUrl }
      else db1
    (db2,
      { verificationId := vid
        status := status
        faceMatch := faceMatch
        ocr := ocr
        autoApprovalReason := if status == VStatus.AUTO_APPROVED then some autoApproval.reason else none
        reviewReasons := if allIssues.length > 0 then some allIssues else none
        totalProcessingTimeMs := totalProcessingTimeMs })

/-! ## Admin review (`reviewVerification` and the admin route) -/

inductive ReviewAction
  | APPROVE
  | REJECT
deriving DecidableEq, Repr

structure ReviewOutcome where
  success : Bool
  message : String
deriving DecidableEq, Repr

/-- Source `reviewVerification(verificationId, adminUserId, action, notes,
rejectionReason)`.  `reviewTime` models `new Date()`; the trust-engine
outputs are supplied as parameters exactly as in `processVerification`.
An `undefined` optional field in a Prisma `update` leaves the column
unchanged, hence the `Option` matches on `notes`/`rejectionReason`. -/
def reviewVerification (db : Db) (verificationId : Nat) (adminUserId : String)
    (action : ReviewAction) (notes : Option String) (rejectionReason : Option String)
    (reviewTime : Int) (trustScoreOnApproval : Int) (badgesOnApproval : List String) :
    Db × ReviewOutcome :=
  match findVerification db verificationId with
  | none => (db, ⟨false, "Verification not found"⟩)
  | some verification =>
    if verification.status != VStatus.NEEDS_REVIEW then
      (db, ⟨false, "Verification is not pending review"⟩)
    else
      let newStatus := if action == ReviewAction.APPROVE then VStatus.APPROVED else VStatus.REJECTED
      let db1 := updateVerification db verificationId fun r =>
        { r with
            status := newStatus
            reviewedBy := some adminUserId
            reviewedAt := some reviewTime
            reviewNotes := match notes with | some n => some n | none => r.reviewNotes
            rejectionReason :=
              match action with
              | ReviewAction.REJECT =>
                match rejectionReason with
                | some s => some s
                | none => r.rejectionReason
              | ReviewAction.APPROVE => none }
      if action == ReviewAction.APPROVE then
        let db2 := updateUser db1 verification.userId fun u =>
          { u with
              verificationStatus := UserVerifStatus.VERIFIED
              college :=
                match jsStrOrNull verification.ocrExtractedCollege with
                | some c => some c
                | none => u.college
              trustScore := some trustScoreOnApproval
              badges := badgesOnApproval }
        (db2, ⟨true, "User verified successfully"⟩)
      else
        let db2 := updateUser db1 verification.userId fun u =>
          { u with verificationStatus := UserVerifStatus.REJECTED }
        (db2, ⟨true, "Verification rejected"⟩)

inductive AdminReviewResponse
  | unauthorized
  | validationFailed
  | rejectionReasonRequired
  | reviewFailed (message : String)
  | reviewed (message : String)
deriving DecidableEq, Repr

/-- JS falsiness of an optional string (`undefined`, `null` or `""`). -/
def strOptFalsy : Option String → Bool
  | none => true
  | some s => s.isEmpty

/-- The `POST /api/admin/verifications` handler.

`callerUserId` is the outcome of `getUserFromRequest` (authentication
gate).  Modelled from the spec: `adminReviewSchema` lives in
`src/lib/validators`, which is not part of this snapshot; §7 classifies its
failure as a ValidationError rejected before any side effect, so its
verdict on the request body is abstracted as the boolean `schemaAccepts`.
After validation the handler itself re-checks that a REJECT action carries
a truthy rejection reason before calling `reviewVerification`. -/
def postAdminReview (db : Db) (callerUserId : Option String) (schemaAccepts : Bool)
    (verificationId : Nat) (action : ReviewAction)
    (notes rejectionReason : Option String)
    (reviewTime : Int) (trustScoreOnApproval : Int) (badgesOnApproval : List String) :
    Db × AdminReviewResponse :=
  match callerUserId with
  | none => (db, AdminReviewResponse.unauthorized)
  | some adminUserId =>
    if !schemaAccepts then (db, AdminReviewResponse.validationFailed)
    else if action == ReviewAction.REJECT && strOptFalsy rejectionReason then
      (db, AdminReviewResponse.rejectionReasonRequired)
    else
      let step := reviewVerification db verificationId adminUserId action notes
        rejectionReason reviewTime trustScoreOnApproval badgesOnApproval
      if step.2.success then (step.1, AdminReviewResponse.reviewed step.2.message)
      else (step.1, AdminReviewResponse.reviewFailed step.2.message)

/-! ## Worker health (`getWorkerHealth` in `verification-worker.ts`) -/

structure WorkerHealth where
  healthy : Bool
  pendingCount : Nat
  processingCount : Nat
  avgProcessingTimeMs : Option Rat
  oldestPendingAge : Option Int
deriving DecidableEq, Repr

/-- Earliest `createdAt` among the given rows (`findFirst` ordered by
`createdAt` ascending). -/
def minCreatedAt : List VerificationRow → Option Int
  | [] => none
  | r :: rs =>
    match minCreatedAt rs with
    | none => some r.createdAt
    | some m => some (min r.createdAt m)

/-- Source `getWorkerHealth()`: pending/processing counts, average stored
processing time, age of the oldest pending row, and the health verdict
`!oldestPendingAge || oldestPendingAge < 300000` (JS falsiness: a `null`
or `0` age short-circuits to healthy). -/
def getWorkerHealth (db : Db) (now : Int) : WorkerHealth :=
  let pending := db.verifications.filter fun r => r.status == VStatus.PENDING
  let processing := db.verifications.filter fun r => r.status == VStatus.PROCESSING
  let completedTimes := db.verifications.filterMap (·.processingTimeMs)
  let avgProcessingTimeMs : Option Rat :=
    if completedTimes.isEmpty then none
    else some ((completedTimes.foldl (· + ·) 0 : Int) / (completedTimes.length : Rat))
  let oldestPendingAge : Option Int := (minCreatedAt pending).map fun t => now - t
  let healthy :=
    match oldestPendingAge with
    | none => true
    | some age => age == 0 || age < 300000
  { healthy := healthy
    pendingCount := pending.length
    processingCount := processing.length
    avgProcessingTimeMs := avgProcessingTimeMs
    oldestPendingAge := oldestPendingAge }

/-! ## Supporting lemmas -/

theorem beginsWith_self_append (p t : List Char) : beginsWith p (p ++ t) = true := by
  induction p with
  | nil => rfl
  | cons a as ih => simp [beginsWith, ih]

theorem occursIn_nil_pat (t : List Char) : occursIn [] t = true := by
  cases t with
  | nil => rfl
  | cons c cs => simp [occursIn, beginsWith]

theorem occursIn_self_append (p t : List Char) : occursIn p (p ++ t) = true := by
  cases p with
  | nil => simpa using occursIn_nil_pat t
  | cons a as =>
    simp only [List.cons_append, occursIn, Bool.or_eq_true]
    exact Or.inl (beginsWith_self_append (a :: as) t)

theorem occursIn_append_left (p pre t : List Char) (h : occursIn p t = true) :
    occursIn p (pre ++ t) = true := by
  induction pre with
  | nil => simpa using h
  | cons c cs ih => simp [occursIn, ih]

theorem jsIncludes_of_data (s pat : String) (pre post : List Char)
    (h : s.data = pre ++ (pat.data ++ post)) : jsIncludes s pat = true := by
  unfold jsIncludes
  rw [h]
  exact occursIn_append_left _ _ _ (occursIn_self_append _ _)

/-- A record lookup keyed by `key` commutes with a key-preserving
conditional map over the rows. -/
theorem find?_update_generic {α κ : Type} [BEq κ] [LawfulBEq κ]
    (key : α → κ) (k : κ) (f : α → α) (hf : ∀ a, key (f a) = key a) (l : List α) :
    ((l.map fun a => if key a == k then f a else a).find? fun a => key a == k)
      = (l.find? fun a => key a == k).map f := by
  induction l with
  | nil => rfl
  | cons a l ih =>
    by_cases h : key a = k
    · have hb : (key a == k) = true := by simpa using h
      simp [List.find?, hb, hf]
    · have hb : (key a == k) = false := by simpa using h
      simp [List.find?, hb, ih]

theorem findVerification_updateVerification (db : Db) (id : Nat)
    (f : VerificationRow → VerificationRow) (hf : ∀ r, (f r).id = r.id) :
    findVerification (updateVerification db id f) id = (findVerification db id).map f :=
  find?_update_generic VerificationRow.id id f hf db.verifications

theorem findUser_updateUser (db : Db) (id : String)
    (f : UserRow → UserRow) (hf : ∀ u, (f u).id = u.id) :
    findUser (updateUser db id f) id = (findUser db id).map f :=
  find?_update_generic UserRow.id id f hf db.users

theorem checkAutoApproval_approved_issues (faceMatch : Option FaceMatchResult)
    (ocr : Option OcrResult) (config : VerificationConfig)
    (h : (checkAutoApproval faceMatch ocr config).approved = true) :
    (checkAutoApproval faceMatch ocr config).issues = [] := by
  simp only [checkAutoApproval] at h ⊢
  split at h <;> simp_all

theorem validateExtractedData_matches_issues (parseDate : String → Option Int) (now : Int)
    (ocrResult : OcrResult) (userName userEmail : String)
    (h : (validateExtractedData parseDate now ocrResult userName userEmail).matches = true) :
    (validateExtractedData parseDate now ocrResult userName userEmail).issues = [] := by
  simp only [validateExtractedData] at h ⊢
  split at h <;> simp_all

theorem dataValidationFor_matches_issues (parseDate : String → Option Int) (now : Int)
    (ocr : Option OcrResult) (user : Option UserRow)
    (h : (dataValidationFor parseDate now ocr user).matches = true) :
    (dataValidationFor parseDate now ocr user).issues = [] := by
  unfold dataValidationFor at *
  cases ocr with
  | none => rfl
  | some o =>
    cases user with
    | none => rfl
    | some u => exact validateExtractedData_matches_issues _ _ _ _ _ h

/-- Full characterization of the final-status decision, assuming the two
sub-results report empty issue lists exactly when they pass (as the real
`checkAutoApproval` and cross-validation do). -/
theorem decideFinalStatus_spec (aa : AutoApprovalCheck) (dv : DataValidation)
    (haa : aa.approved = true → aa.issues = [])
    (hdv : dv.matches = true → dv.issues = []) :
    (decideFinalStatus aa dv = VStatus.AUTO_APPROVED ↔ (aa.approved = true ∧ dv.matches = true)) ∧
    (decideFinalStatus aa dv = VStatus.REJECTED ↔
      (aa.issues ++ dv.issues).any hasRejectMarker = true) ∧
    (decideFinalStatus aa dv = VStatus.NEEDS_REVIEW ↔
      (¬(aa.approved = true ∧ dv.matches = true) ∧
        (aa.issues ++ dv.issues).any hasRejectMarker = false)) := by
  unfold decideFinalStatus
  by_cases h1 : (aa.approved && dv.matches) = true
  · have ha : aa.approved = true := by
      cases hb : aa.approved <;> simp_all
    have hd : dv.matches = true := by
      cases hb : dv.matches <;> simp_all
    rw [haa ha, hdv hd]
    simp [h1, ha, hd]
  · have h1' : ¬(aa.approved = true ∧ dv.matches = true) := by
      rw [Bool.and_eq_true] at h1
      exact h1
    rw [if_neg h1]
    by_cases h2 : (aa.issues ++ dv.issues).any hasRejectMarker = true
    · rw [if_pos h2]
      refine ⟨?_, ?_, ?_⟩ <;> simp [h1', h2]
    · have h2' : (aa.issues ++ dv.issues).any hasRejectMarker = false := by
        simpa using h2
      rw [if_neg h2]
      refine ⟨?_, ?_, ?_⟩ <;> simp [h1', h2']

theorem minCreatedAt_eq_none_iff (rows : List VerificationRow) :
    minCreatedAt rows = none ↔ rows = [] := by
  cases rows with
  | nil => simp [minCreatedAt]
  | cons r rs =>
    simp only [minCreatedAt]
    cases minCreatedAt rs <;> simp

theorem data_append_eq (a b : String) : (a ++ b).data = a.data ++ b.data := rfl

/-- Both interpolated numbers occur verbatim inside the face-score issue
string. -/
theorem faceIssueString_contains_values (s t : Int) :
    jsIncludes (faceIssueString s t) (toString s) = true ∧
    jsIncludes (faceIssueString s t) (toString t) = true := by
  constructor
  · apply jsIncludes_of_data _ _ ("Face match score (".data)
      ((".0" ++ ("%) below threshold (" ++ (toString t ++ "%)"))).data)
    simp [faceIssueString, jsToFixed1, data_append_eq, List.append_assoc]
  · apply jsIncludes_of_data _ _
      (("Face match score (" ++ (jsToFixed1 s ++ "%) below threshold (")).data) ("%)".data)
    simp [faceIssueString, jsToFixed1, data_append_eq, List.append_assoc]

theorem findVerification_updateUser (db : Db) (uid : String) (g : UserRow → UserRow) (k : Nat) :
    findVerification (updateUser db uid g) k = findVerification db k := rfl

theorem findUser_updateVerification (db : Db) (id : Nat) (f : VerificationRow → VerificationRow)
    (uid : String) : findUser (updateVerification db id f) uid = findUser db uid := rfl

theorem findUser_extendVerifications (db : Db) (rows : List VerificationRow) (n : Nat)
    (uid : String) :
    findUser { db with verifications := rows, nextVerificationId := n } uid = findUser db uid := rfl

theorem findVerification_userBranches (db1 : Db) (c1 c2 c3 : Bool) (u1 u2 u3 : String)
    (g1 g2 g3 : UserRow → UserRow) (k : Nat) :
    findVerification
      (if c1 then updateUser db1 u1 g1
       else if c2 then updateUser db1 u2 g2
       else if c3 then updateUser db1 u3 g3
       else db1) k = findVerification db1 k := by
  split
  · rfl
  · split
    · rfl
    · split <;> rfl

theorem exists_find?_append (rows : List VerificationRow) (r0 : VerificationRow) (k : Nat)
    (hk : r0.id = k) :
    ∃ r, ((rows ++ [r0]).find? fun r => r.id == k) = some r := by
  rw [← Option.isSome_iff_exists]
  apply List.find?_isSome.mpr
  exact ⟨r0, by simp, by simp [hk]⟩

/-! ## Claims -/

/-- C9: `validateIdAppearance(null, null, null)` returns `isValid = false`
with exactly the three issues (blank text, missing name, missing college),
and in particular no suspicious-pattern issue. -/
theorem C9_validateIdAppearance_all_null :
    validateIdAppearance none none none =
      ⟨false,
        [ "ID appears blank or has insufficient text",
          "Could not extract valid name from ID",
          "Could not extract college name from ID" ]⟩ ∧
    "ID contains suspicious patterns" ∉ (validateIdAppearance none none none).issues := by
  constructor
  · decide
  · decide

/-- C2 counterexample: the claim asserts
`isCollegeRecognized("MIT Cambridge", config)` is false under the default
configuration, but the lower-cased trimmed name `"mit cambridge"` contains
the recognized-list entry `"mit"` as a literal substring, so the code
returns true. -/
theorem C2_mit_cambridge_counterexample :
    ¬(isCollegeRecognized "MIT Cambridge" DEFAULT_VERIFICATION_CONFIG = false) := by
  decide

/-- C2 (amended): `isCollegeRecognized` is false on the empty name and
otherwise true exactly when the lower-cased trimmed name is a substring
of, or contains, some recognized-list entry; consequently both
`"MIT Cambridge"` and `"mit students"` are recognized under the default
configuration (each contains the entry `"mit"`). -/
theorem C2_isCollegeRecognized_characterization :
    (∀ (collegeName : String) (config : VerificationConfig),
      isCollegeRecognized collegeName config = true ↔
        (collegeName ≠ "" ∧ ∃ college ∈ config.recognizedColleges,
          (jsIncludes (jsTrim (jsToLower collegeName)) college = true ∨
            jsIncludes college (jsTrim (jsToLower collegeName)) = true))) ∧
    isCollegeRecognized "MIT Cambridge" DEFAULT_VERIFICATION_CONFIG = true ∧
    isCollegeRecognized "mit students" DEFAULT_VERIFICATION_CONFIG = true := by
  refine ⟨?_, by decide, by decide⟩
  intro collegeName config
  unfold isCollegeRecognized
  by_cases h : collegeName.isEmpty
  · have he : collegeName = "" := (String.isEmpty_iff collegeName).mp h
    rw [if_pos h]
    simp [he]
  · have he : collegeName ≠ "" := fun e => h ((String.isEmpty_iff collegeName).mpr e)
    rw [if_neg h]
    simp [List.any_eq_true, he]

/-- C8 counterexample: with a single PENDING row whose age is exactly
300000 ms the claim predicts healthy (the age does not strictly exceed the
5-minute bound), but `getWorkerHealth` computes `300000 < 300000 = false`
and reports unhealthy. -/
theorem C8_health_boundary_counterexample :
    (getWorkerHealth
      { verifications :=
          [{ id := 0, userId := "u1", studentIdPhotoUrl := "id.png",
             selfiePhotoUrl := "selfie.png", status := VStatus.PENDING, createdAt := 0 }]
        users := []
        nextVerificationId := 1 } 300000).healthy = false ∧
    (getWorkerHealth
      { verifications :=
          [{ id := 0, userId := "u1", studentIdPhotoUrl := "id.png",
             selfiePhotoUrl := "selfie.png", status := VStatus.PENDING, createdAt := 0 }]
        users := []
        nextVerificationId := 1 } 300000).oldestPendingAge = some 300000 ∧
    ¬((300000 : Int) > 300000) := by
  refine ⟨by decide, by decide, by decide⟩

/-- C8 (amended): `getWorkerHealth` reports `healthy = false` iff there is
at least one PENDING row and the age of the oldest PENDING row is at least
the fixed 5-minute bound (300000 ms); with no PENDING rows, or an
oldest-pending age strictly below the bound, it reports `healthy = true`.
(The `oldestPendingAge` field is `none` exactly when no PENDING row
exists.) -/
theorem C8_worker_health_characterization (db : Db) (now : Int) :
    ((getWorkerHealth db now).healthy = false ↔
      ∃ a, (getWorkerHealth db now).oldestPendingAge = some a ∧ 300000 ≤ a) ∧
    ((getWorkerHealth db now).oldestPendingAge = none ↔
      db.verifications.filter (fun r => r.status == VStatus.PENDING) = []) := by
  have hiff := minCreatedAt_eq_none_iff
    (db.verifications.filter fun r => r.status == VStatus.PENDING)
  constructor
  · cases hm : minCreatedAt (db.verifications.filter fun r => r.status == VStatus.PENDING) with
    | none => simp [getWorkerHealth, hm]
    | some m =>
      simp [getWorkerHealth, hm]
      omega
  · simp only [getWorkerHealth]
    cases hm : minCreatedAt (db.verifications.filter fun r => r.status == VStatus.PENDING) with
    | none =>
      simp only [hm, Option.map_none']
      simpa using hiff.mp hm
    | some m =>
      rw [hm] at hiff
      simp only [hm, Option.map_some']
      constructor
      · intro h
        exact absurd h (by simp)
      · intro h
        exact absurd (hiff.mpr h) (by simp)





/-- C3: for a successful face-match result under a config with face
matching enabled, a similarity exactly equal to
`autoApprovalFaceMatchMin` contributes no face-score issue (the policy
issues are exactly the OCR-side issues), while a similarity below the
threshold puts the face-score issue — whose text contains both the
observed similarity and the threshold — into the collected issues. -/
theorem C3_face_threshold_boundary (f : FaceMatchResult) (ocr : Option OcrResult)
    (config : VerificationConfig) (hs : f.success = true)
    (hf : config.enableFaceMatching = true) :
    (f.similarity = config.thresholds.autoApprovalFaceMatchMin →
      faceIssues (some f) config = [] ∧
      (checkAutoApproval (some f) ocr config).issues = ocrIssues ocr config) ∧
    (f.similarity < config.thresholds.autoApprovalFaceMatchMin →
      faceIssueString f.similarity config.thresholds.autoApprovalFaceMatchMin ∈
        (checkAutoApproval (some f) ocr config).issues ∧
      jsIncludes (faceIssueString f.similarity config.thresholds.autoApprovalFaceMatchMin)
        (toString f.similarity) = true ∧
      jsIncludes (faceIssueString f.similarity config.thresholds.autoApprovalFaceMatchMin)
        (toString config.thresholds.autoApprovalFaceMatchMin) = true) := by
  constructor
  · intro he
    have hfi : faceIssues (some f) config = [] := by
      simp [faceIssues, hf, hs, he]
    refine ⟨hfi, ?_⟩
    simp only [checkAutoApproval, hfi, List.nil_append]
    split
    · rename_i hc
      have hemp : (ocrIssues ocr config).isEmpty = true := by
        cases hb : (ocrIssues ocr config).isEmpty <;> simp_all
      simp [List.isEmpty_iff.mp hemp]
    · rfl
  · intro hlt
    have hfi : faceIssues (some f) config =
        [faceIssueString f.similarity config.thresholds.autoApprovalFaceMatchMin] := by
      simp [faceIssues, hf, hs, hlt]
    refine ⟨?_, (faceIssueString_contains_values _ _).1, (faceIssueString_contains_values _ _).2⟩
    simp only [checkAutoApproval, hfi]
    split
    · rename_i hc
      simp at hc
    · simp

/-- C3 witness: with the default configuration (threshold 75) and a
successful face match of similarity 70, the face-score issue is collected
and its text contains `70` and `75`. -/
theorem C3_face_threshold_boundary_witness :
    faceIssueString 70 75 ∈
      (checkAutoApproval (some ⟨70, 80, true, none, 0⟩) none DEFAULT_VERIFICATION_CONFIG).issues ∧
    jsIncludes (faceIssueString 70 75) (toString (70 : Int)) = true ∧
    jsIncludes (faceIssueString 70 75) (toString (75 : Int)) = true :=
  (C3_face_threshold_boundary ⟨70, 80, true, none, 0⟩ none DEFAULT_VERIFICATION_CONFIG
    rfl rfl).2 (by decide)

/-- C4: with face matching and OCR both disabled and auto-approval
enabled, a fault-free run of `processVerification` collects no issues at
all (in particular no cross-validation issue, since no OCR result exists)
and returns AUTO_APPROVED, for every store and every user. -/
theorem C4_flags_off_auto_approved (db : Db) (input : ProcessVerificationInput)
    (fmRes : FaceMatchResult) (ocrRes : OcrResult) (parseDate : String → Option Int)
    (trustScoreOnApproval : Int) (badgesOnApproval : List String)
    (config : VerificationConfig) (t0 t1 : Int)
    (hfm : config.enableFaceMatching = false) (hocr : config.enableOcr = false)
    (haa : config.enableAutoApproval = true) :
    (processVerification db input fmRes ocrRes none parseDate trustScoreOnApproval
      badgesOnApproval config t0 t1).2.status = VStatus.AUTO_APPROVED ∧
    (processVerification db input fmRes ocrRes none parseDate trustScoreOnApproval
      badgesOnApproval config t0 t1).2.reviewReasons = none := by
  have hstat : (processVerification db input fmRes ocrRes none parseDate trustScoreOnApproval
      badgesOnApproval config t0 t1).2.status =
      decideFinalStatus
        (checkAutoApproval (if config.enableFaceMatching then some fmRes else none)
          (if config.enableOcr then some ocrRes else none) config)
        (dataValidationFor parseDate t1 (if config.enableOcr then some ocrRes else none)
          (findUser db input.userId)) := rfl
  have hrr : (processVerification db input fmRes ocrRes none parseDate trustScoreOnApproval
      badgesOnApproval config t0 t1).2.reviewReasons =
      (if ((checkAutoApproval (if config.enableFaceMatching then some fmRes else none)
          (if config.enableOcr then some ocrRes else none) config).issues ++
        (dataValidationFor parseDate t1 (if config.enableOcr then some ocrRes else none)
          (findUser db input.userId)).issues).length > 0 then
        some ((checkAutoApproval (if config.enableFaceMatching then some fmRes else none)
          (if config.enableOcr then some ocrRes else none) config).issues ++
        (dataValidationFor parseDate t1 (if config.enableOcr then some ocrRes else none)
          (findUser db input.userId)).issues)
      else none) := rfl
  have hca : checkAutoApproval none none config =
      ⟨true, "All verification criteria met", []⟩ := by
    simp [checkAutoApproval, faceIssues, ocrIssues, hfm, hocr, haa]
  have hdv : dataValidationFor parseDate t1 none (findUser db input.userId) = ⟨true, []⟩ := by
    unfold dataValidationFor
    cases findUser db input.userId <;> rfl
  rw [hstat, hrr, hfm, hocr]
  simp only [if_neg (Bool.false_ne_true), hca, hdv]
  exact ⟨rfl, rfl⟩

/-- C4 witness: a concrete run with both adapters disabled and
auto-approval enabled is AUTO_APPROVED with no review reasons. -/
theorem C4_flags_off_auto_approved_witness :
    (processVerification ⟨[], [], 0⟩ ⟨"u1", "id.png", "selfie.png"⟩
      ⟨0, 0, false, none, 0⟩ ⟨false, 0, none, none, none, none, none, 0, none⟩
      none (fun _ => none) 0 []
      { DEFAULT_VERIFICATION_CONFIG with
          enableFaceMatching := false, enableOcr := false, enableAutoApproval := true }
      0 1).2.status = VStatus.AUTO_APPROVED ∧
    (processVerification ⟨[], [], 0⟩ ⟨"u1", "id.png", "selfie.png"⟩
      ⟨0, 0, false, none, 0⟩ ⟨false, 0, none, none, none, none, none, 0, none⟩
      none (fun _ => none) 0 []
      { DEFAULT_VERIFICATION_CONFIG with
          enableFaceMatching := false, enableOcr := false, enableAutoApproval := true }
      0 1).2.reviewReasons = none :=
  C4_flags_off_auto_approved ⟨[], [], 0⟩ ⟨"u1", "id.png", "selfie.png"⟩
    ⟨0, 0, false, none, 0⟩ ⟨false, 0, none, none, none, none, none, 0, none⟩
    (fun _ => none) 0 []
    { DEFAULT_VERIFICATION_CONFIG with
        enableFaceMatching := false, enableOcr := false, enableAutoApproval := true }
    0 1 rfl rfl rfl

/-- C1: on every fault-free run of `processVerification`, the returned
status is AUTO_APPROVED iff the auto-approval policy approved and the
cross-validation matched; REJECTED iff the union of the two issue lists
contains an issue whose text includes `"expired"`, `"fake"` or
`"suspicious patterns"`; and NEEDS_REVIEW otherwise. -/
theorem C1_final_status_characterization (db : Db) (input : ProcessVerificationInput)
    (fmRes : FaceMatchResult) (ocrRes : OcrResult) (parseDate : String → Option Int)
    (trustScoreOnApproval : Int) (badgesOnApproval : List String)
    (config : VerificationConfig) (t0 t1 : Int) :
    ((processVerification db input fmRes ocrRes none parseDate trustScoreOnApproval
        badgesOnApproval config t0 t1).2.status = VStatus.AUTO_APPROVED ↔
      ((checkAutoApproval (if config.enableFaceMatching then some fmRes else none)
          (if config.enableOcr then some ocrRes else none) config).approved = true ∧
        (dataValidationFor parseDate t1 (if config.enableOcr then some ocrRes else none)
          (findUser db input.userId)).matches = true)) ∧
    ((processVerification db input fmRes ocrRes none parseDate trustScoreOnApproval
        badgesOnApproval config t0 t1).2.status = VStatus.REJECTED ↔
      ((checkAutoApproval (if config.enableFaceMatching then some fmRes else none)
          (if config.enableOcr then some ocrRes else none) config).issues ++
        (dataValidationFor parseDate t1 (if config.enableOcr then some ocrRes else none)
          (findUser db input.userId)).issues).any hasRejectMarker = true) ∧
    ((processVerification db input fmRes ocrRes none parseDate trustScoreOnApproval
        badgesOnApproval config t0 t1).2.status = VStatus.NEEDS_REVIEW ↔
      (¬((checkAutoApproval (if config.enableFaceMatching then some fmRes else none)
            (if config.enableOcr then some ocrRes else none) config).approved = true ∧
          (dataValidationFor parseDate t1 (if config.enableOcr then some ocrRes else none)
            (findUser db input.userId)).matches = true) ∧
        ((checkAutoApproval (if config.enableFaceMatching then some fmRes else none)
            (if config.enableOcr then some ocrRes else none) config).issues ++
          (dataValidationFor parseDate t1 (if config.enableOcr then some ocrRes else none)
            (findUser db input.userId)).issues).any hasRejectMarker = false)) := by
  have hstat : (processVerification db input fmRes ocrRes none parseDate trustScoreOnApproval
      badgesOnApproval config t0 t1).2.status =
      decideFinalStatus
        (checkAutoApproval (if config.enableFaceMatching then some fmRes else none)
          (if config.enableOcr then some ocrRes else none) config)
        (dataValidationFor parseDate t1 (if config.enableOcr then some ocrRes else none)
          (findUser db input.userId)) := rfl
  rw [hstat]
  exact decideFinalStatus_spec _ _
    (checkAutoApproval_approved_issues _ _ _)
    (dataValidationFor_matches_issues _ _ _ _)

/-- C6: reviewing a verification whose status is not NEEDS_REVIEW fails
with the conflict message and performs no update at all — the store is
returned unchanged, so a second review of an already-reviewed request
preserves the first review's outcome. -/
theorem C6_no_double_review (db : Db) (verificationId : Nat) (adminUserId : String)
    (action : ReviewAction) (notes rejectionReason : Option String)
    (reviewTime trustScoreOnApproval : Int) (badgesOnApproval : List String)
    (v : VerificationRow)
    (hfind : findVerification db verificationId = some v)
    (hstatus : v.status ≠ VStatus.NEEDS_REVIEW) :
    (reviewVerification db verificationId adminUserId action notes rejectionReason
      reviewTime trustScoreOnApproval badgesOnApproval).1 = db ∧
    (reviewVerification db verificationId adminUserId action notes rejectionReason
      reviewTime trustScoreOnApproval badgesOnApproval).2 =
      ⟨false, "Verification is not pending review"⟩ := by
  have hb : (v.status != VStatus.NEEDS_REVIEW) = true := by
    simpa [bne_iff_ne] using hstatus
  simp only [reviewVerification, hfind]
  rw [if_pos hb]
  exact ⟨rfl, rfl⟩

/-- C6 witness: reviewing an already-APPROVED row fails with the conflict
message and leaves the store untouched. -/
theorem C6_no_double_review_witness :
    (reviewVerification
      { verifications :=
          [{ id := 7, userId := "u1", studentIdPhotoUrl := "a", selfiePhotoUrl := "b",
             status := VStatus.APPROVED, createdAt := 0 }]
        users := []
        nextVerificationId := 8 } 7 "admin" ReviewAction.APPROVE none none 5 0 []).1 =
      { verifications :=
          [{ id := 7, userId := "u1", studentIdPhotoUrl := "a", selfiePhotoUrl := "b",
             status := VStatus.APPROVED, createdAt := 0 }]
        users := []
        nextVerificationId := 8 } ∧
    (reviewVerification
      { verifications :=
          [{ id := 7, userId := "u1", studentIdPhotoUrl := "a", selfiePhotoUrl := "b",
             status := VStatus.APPROVED, createdAt := 0 }]
        users := []
        nextVerificationId := 8 } 7 "admin" ReviewAction.APPROVE none none 5 0 []).2 =
      ⟨false, "Verification is not pending review"⟩ :=
  C6_no_double_review _ 7 "admin" ReviewAction.APPROVE none none 5 0 []
    { id := 7, userId := "u1", studentIdPhotoUrl := "a", selfiePhotoUrl := "b",
      status := VStatus.APPROVED, createdAt := 0 }
    (by decide) (by decide)

/-- C7: a review request with action REJECT and a falsy (absent or empty)
rejection reason is rejected before `reviewVerification` is ever invoked:
the store is returned unchanged and the response is one of the error
responses, never a success. -/
theorem C7_reject_requires_reason (db : Db) (callerUserId : Option String)
    (schemaAccepts : Bool) (verificationId : Nat) (notes rejectionReason : Option String)
    (reviewTime trustScoreOnApproval : Int) (badgesOnApproval : List String)
    (hfalsy : strOptFalsy rejectionReason = true) :
    (postAdminReview db callerUserId schemaAccepts verificationId ReviewAction.REJECT
      notes rejectionReason reviewTime trustScoreOnApproval badgesOnApproval).1 = db ∧
    (postAdminReview db callerUserId schemaAccepts verificationId ReviewAction.REJECT
      notes rejectionReason reviewTime trustScoreOnApproval badgesOnApproval).2 ∈
      [AdminReviewResponse.unauthorized, AdminReviewResponse.validationFailed,
        AdminReviewResponse.rejectionReasonRequired] := by
  cases callerUserId with
  | none => exact ⟨rfl, by simp [postAdminReview]⟩
  | some adminUserId =>
    cases schemaAccepts with
    | false => exact ⟨rfl, by simp [postAdminReview]⟩
    | true =>
      refine ⟨?_, ?_⟩ <;> simp [postAdminReview, hfalsy]

/-- C7 witness: a REJECT with no rejection reason against a concrete store
changes nothing and is answered with the rejection-reason error. -/
theorem C7_reject_requires_reason_witness :
    (postAdminReview ⟨[], [], 0⟩ (some "admin") true 3 ReviewAction.REJECT none none
      0 0 []).1 = (⟨[], [], 0⟩ : Db) ∧
    (postAdminReview ⟨[], [], 0⟩ (some "admin") true 3 ReviewAction.REJECT none none
      0 0 []).2 ∈
      [AdminReviewResponse.unauthorized, AdminReviewResponse.validationFailed,
        AdminReviewResponse.rejectionReasonRequired] :=
  C7_reject_requires_reason ⟨[], [], 0⟩ (some "admin") true 3 none none 0 0 [] rfl

theorem exists_findVerification_extend (db : Db) (r0 : VerificationRow) (n k : Nat)
    (hk : r0.id = k) :
    ∃ r, findVerification
      { db with verifications := db.verifications ++ [r0], nextVerificationId := n } k =
        some r := by
  unfold findVerification
  exact exists_find?_append db.verifications r0 k hk

/-- C5: when an exception (message `msg`) escapes the orchestration of
`processVerification`, the created verification row is finalized as
NEEDS_REVIEW with the error message recorded, the owning user's
verificationStatus is set to PENDING, and the function still returns a
NEEDS_REVIEW result whose review reason is the error-tagged message —
the failure is not propagated and the request is never left without a
recorded status. -/
theorem C5_exception_recovery (db : Db) (input : ProcessVerificationInput)
    (fmRes : FaceMatchResult) (ocrRes : OcrResult) (msg : String)
    (parseDate : String → Option Int) (trustScoreOnApproval : Int)
    (badgesOnApproval : List String) (config : VerificationConfig) (t0 t1 : Int) :
    (processVerification db input fmRes ocrRes (some msg) parseDate trustScoreOnApproval
      badgesOnApproval config t0 t1).2.status = VStatus.NEEDS_REVIEW ∧
    (processVerification db input fmRes ocrRes (some msg) parseDate trustScoreOnApproval
      badgesOnApproval config t0 t1).2.reviewReasons = some ["Processing error: " ++ msg] ∧
    (findVerification
      (processVerification db input fmRes ocrRes (some msg) parseDate trustScoreOnApproval
        badgesOnApproval config t0 t1).1
      (processVerification db input fmRes ocrRes (some msg) parseDate trustScoreOnApproval
        badgesOnApproval config t0 t1).2.verificationId).map (·.status) =
      some VStatus.NEEDS_REVIEW ∧
    (findVerification
      (processVerification db input fmRes ocrRes (some msg) parseDate trustScoreOnApproval
        badgesOnApproval config t0 t1).1
      (processVerification db input fmRes ocrRes (some msg) parseDate trustScoreOnApproval
        badgesOnApproval config t0 t1).2.verificationId).map (·.errorMessage) =
      some (some msg) ∧
    (findUser
      (processVerification db input fmRes ocrRes (some msg) parseDate trustScoreOnApproval
        badgesOnApproval config t0 t1).1 input.userId).map (·.verificationStatus) =
      (findUser db input.userId).map (fun _ => UserVerifStatus.PENDING) := by
  have h0 : (processVerification db input fmRes ocrRes (some msg) parseDate trustScoreOnApproval
      badgesOnApproval config t0 t1).1 =
      updateUser
        (updateVerification
          { db with
              verifications :=
                db.verifications ++ [newVerificationRow input db.nextVerificationId t0]
              nextVerificationId := db.nextVerificationId + 1 }
          db.nextVerificationId
          (fun r =>
            { r with
                status := VStatus.NEEDS_REVIEW
                errorMessage := some msg
                processingCompletedAt := some t1
                processingTimeMs := some (t1 - t0) }))
        input.userId
        (fun u =>
          { u with
              verificationStatus := UserVerifStatus.PENDING
              studentIdPhoto := some input.studentIdPhotoUrl
              selfiePhoto := some input.selfiePhotoUrl }) := rfl
  have hvid : (processVerification db input fmRes ocrRes (some msg) parseDate trustScoreOnApproval
      badgesOnApproval config t0 t1).2.verificationId = db.nextVerificationId := rfl
  obtain ⟨r, hr⟩ := exists_findVerification_extend db
    (newVerificationRow input db.nextVerificationId t0) (db.nextVerificationId + 1)
    db.nextVerificationId rfl
  refine ⟨rfl, rfl, ?_, ?_, ?_⟩
  · rw [h0, hvid, findVerification_updateUser, findVerification_updateVerification]
    · rw [hr]
      rfl
    · exact fun _ => rfl
  · rw [h0, hvid, findVerification_updateUser, findVerification_updateVerification]
    · rw [hr]
      rfl
    · exact fun _ => rfl
  · rw [h0, findUser_updateUser]
    · rw [findUser_updateVerification, findUser_extendVerifications]
      cases findUser db input.userId <;> rfl
    · exact fun _ => rfl

/-- C10: on a fault-free run with face matching and OCR enabled, a face
similarity of exactly 0, a face confidence of exactly 0 and an OCR
confidence of exactly 0 are each persisted as null (`none`) in the
verification row — the `x || null` coalescing maps a genuine zero to the
same stored value as an absent result (`jsNumOrNull (some 0) =
jsNumOrNull none`). -/
theorem C10_zero_scores_stored_null (db : Db) (input : ProcessVerificationInput)
    (fmRes : FaceMatchResult) (ocrRes : OcrResult) (parseDate : String → Option Int)
    (trustScoreOnApproval : Int) (badgesOnApproval : List String)
    (config : VerificationConfig) (t0 t1 : Int)
    (henb : config.enableFaceMatching = true) (hocrEnb : config.enableOcr = true)
    (hsim : fmRes.similarity = 0) (hconf : fmRes.confidence = 0)
    (hocrconf : ocrRes.confidence = 0) :
    (findVerification
      (processVerification db input fmRes ocrRes none parseDate trustScoreOnApproval
        badgesOnApproval config t0 t1).1
      (processVerification db input fmRes ocrRes none parseDate trustScoreOnApproval
        badgesOnApproval config t0 t1).2.verificationId).map (·.faceMatchScore) =
      some none ∧
    (findVerification
      (processVerification db input fmRes ocrRes none parseDate trustScoreOnApproval
        badgesOnApproval config t0 t1).1
      (processVerification db input fmRes ocrRes none parseDate trustScoreOnApproval
        badgesOnApproval config t0 t1).2.verificationId).map (·.faceMatchConfidence) =
      some none ∧
    (findVerification
      (processVerification db input fmRes ocrRes none parseDate trustScoreOnApproval
        badgesOnApproval config t0 t1).1
      (processVerification db input fmRes ocrRes none parseDate trustScoreOnApproval
        badgesOnApproval config t0 t1).2.verificationId).map (·.ocrConfidence) =
      some none ∧
    jsNumOrNull (some 0) = jsNumOrNull none := by
  obtain ⟨r, hr⟩ := exists_findVerification_extend db
    (newVerificationRow input db.nextVerificationId t0) (db.nextVerificationId + 1)
    db.nextVerificationId rfl
  refine ⟨?_, ?_, ?_, by decide⟩
  · simp only [processVerification]
    rw [findVerification_userBranches, findVerification_updateVerification]
    · rw [hr]
      simp [henb, hocrEnb, hsim, hconf, hocrconf, jsNumOrNull]
    · exact fun _ => rfl
  · simp only [processVerification]
    rw [findVerification_userBranches, findVerification_updateVerification]
    · rw [hr]
      simp [henb, hocrEnb, hsim, hconf, hocrconf, jsNumOrNull]
    · exact fun _ => rfl
  · simp only [processVerification]
    rw [findVerification_userBranches, findVerification_updateVerification]
    · rw [hr]
      simp [henb, hocrEnb, hsim, hconf, hocrconf, jsNumOrNull]
    · exact fun _ => rfl

/-- C10 witness: a concrete run whose face similarity, face confidence and
OCR confidence are all exactly 0 stores null in all three columns. -/
theorem C10_zero_scores_stored_null_witness :
    (findVerification
      (processVerification ⟨[], [], 0⟩ ⟨"u1", "a", "b"⟩ ⟨0, 0, true, none, 0⟩
        ⟨true, 0, none, none, none, none, none, 0, none⟩ none (fun _ => none) 0 []
        DEFAULT_VERIFICATION_CONFIG 0 1).1
      (processVerification ⟨[], [], 0⟩ ⟨"u1", "a", "b"⟩ ⟨0, 0, true, none, 0⟩
        ⟨true, 0, none, none, none, none, none, 0, none⟩ none (fun _ => none) 0 []
        DEFAULT_VERIFICATION_CONFIG 0 1).2.verificationId).map (·.faceMatchScore) =
      some none ∧
    (findVerification
      (processVerification ⟨[], [], 0⟩ ⟨"u1", "a", "b"⟩ ⟨0, 0, true, none, 0⟩
        ⟨true, 0, none, none, none, none, none, 0, none⟩ none (fun _ => none) 0 []
        DEFAULT_VERIFICATION_CONFIG 0 1).1
      (processVerification ⟨[], [], 0⟩ ⟨"u1", "a", "b"⟩ ⟨0, 0, true, none, 0⟩
        ⟨true, 0, none, none, none, none, none, 0, none⟩ none (fun _ => none) 0 []
        DEFAULT_VERIFICATION_CONFIG 0 1).2.verificationId).map (·.faceMatchConfidence) =
      some none ∧
    (findVerification
      (processVerification ⟨[], [], 0⟩ ⟨"u1", "a", "b"⟩ ⟨0, 0, true, none, 0⟩
        ⟨true, 0, none, none, none, none, none, 0, none⟩ none (fun _ => none) 0 []
        DEFAULT_VERIFICATION_CONFIG 0 1).1
      (processVerification ⟨[], [], 0⟩ ⟨"u1", "a", "b"⟩ ⟨0, 0, true, none, 0⟩
        ⟨true, 0, none, none, none, none, none, 0, none⟩ none (fun _ => none) 0 []
        DEFAULT_VERIFICATION_CONFIG 0 1).2.verificationId).map (·.ocrConfidence) =
      some none ∧
    jsNumOrNull (some 0) = jsNumOrNull none :=
  C10_zero_scores_stored_null ⟨[], [], 0⟩ ⟨"u1", "a", "b"⟩ ⟨0, 0, true, none, 0⟩
    ⟨true, 0, none, none, none, none, none, 0, none⟩ (fun _ => none) 0 []
    DEFAULT_VERIFICATION_CONFIG 0 1 rfl rfl rfl rfl rfl
